import Mathlib

/-!
Verification development for the TikTok followers service (src/main.py).

The Python module is shallowly embedded: the in-process cache (a dict keyed
by a hash of the lower-cased username) becomes a total function from keys to
optional entries, wall-clock time becomes an explicit integer parameter
(seconds), network strategies become oracle parameters of type Option String
(none = the strategy produced nothing), and an unexpected exception inside
the request handler is modelled by an extra Option String parameter carrying
the exception message.
-/

/-- Whitespace characters removed by the Python str.strip method
(ASCII subset; the inputs of interest are ASCII). -/
def isPySpace (c : Char) : Bool :=
  c = ' ' || c = '\t' || c = '\n' || c = '\r' || c = '\x0b' || c = '\x0c'

/-- Strip leading and trailing whitespace from a character list
(Python str.strip). -/
def stripChars (l : List Char) : List Char :=
  ((l.dropWhile isPySpace).reverse.dropWhile isPySpace).reverse

/-- Python username.strip() from src/main.py line 352. -/
def pyStrip (s : String) : String := String.mk (stripChars s.data)

/-- Python username.strip().replace("@", "") from src/main.py line 352:
strip surrounding whitespace, then delete every occurrence of the
character @ (replace with the empty string removes all occurrences). -/
def pyNormalize (s : String) : String :=
  String.mk ((pyStrip s).data.filter (fun c => c ≠ '@'))

/-- Characters allowed by the validation regex [a-zA-Z0-9._-] at
src/main.py line 354. -/
def isAllowedChar (c : Char) : Bool :=
  ('a' ≤ c && c ≤ 'z') || ('A' ≤ c && c ≤ 'Z') || ('0' ≤ c && c ≤ '9') ||
    c = '.' || c = '_' || c = '-'

/-- The full-string regex match at src/main.py line 354: one or more
allowed characters. -/
def validUsername (s : String) : Bool :=
  !s.isEmpty && s.data.all isAllowedChar

/-- Python truthiness of an optional string (None and the empty string
are falsy), as used by the checks at src/main.py lines 257 and 368. -/
def pyTruthy : Option String → Bool
  | none => false
  | some s => !s.isEmpty

/-- One cache entry: the raw followers string plus its creation time,
mirroring the dict literal at src/main.py lines 262-265. -/
structure CacheEntry where
  followers : String
  timestamp : Int
  deriving DecidableEq

/-- The cache dict app_state.cache, modelled as a total map from keys to
optional entries. -/
def Cache := String → Option CacheEntry

/-- An empty cache. -/
def emptyCache : Cache := fun _ => none

/-- app_state.cache_timeout = 300 seconds (src/main.py line 25). -/
def cacheTimeout : Int := 300

/-- is_cache_valid (src/main.py lines 115-117): the entry age is
strictly below the timeout. -/
def isCacheValid (now : Int) (e : CacheEntry) : Bool :=
  now - e.timestamp < cacheTimeout

/-- Lower-casing of one character, as Python str.lower acts on the
ASCII usernames this program accepts. -/
def charToLower (c : Char) : Char :=
  if 'A' ≤ c && c ≤ 'Z' then Char.ofNat (c.toNat + 32) else c

/-- get_cache_key (src/main.py lines 111-113) hashes the lower-cased
username with md5; only equality of keys matters to the program, so the
digest is modelled by the lower-cased username itself. -/
def getCacheKey (u : String) : String := String.mk (u.data.map charToLower)

/-- Deletion of a key, modelling the del statement at src/main.py
line 251. -/
def cacheDelete (c : Cache) (k : String) : Cache :=
  fun q => if q = k then none else c q

/-- Store of a fresh entry (src/main.py lines 261-265): unconditionally
overwrites whatever was there with the value and the current time. -/
def cacheStore (c : Cache) (now : Int) (k v : String) : Cache :=
  fun q => if q = k then some ⟨v, now⟩ else c q

/-- The cache-read logic of get_followers_count (src/main.py
lines 244-251): a valid entry is returned as a hit; an expired entry is
deleted and reported as a miss; an absent key is a miss. -/
def cacheLookup (c : Cache) (now : Int) (k : String) : Option String × Cache :=
  match c k with
  | some e => if isCacheValid now e then (some e.followers, c) else (none, cacheDelete c k)
  | none => (none, c)

/-- Result of the extraction chain: the optional followers value, the
cache after the call, and whether each strategy was invoked. -/
structure ChainResult where
  followers : Option String
  cache : Cache
  apiCalled : Bool
  scrapeCalled : Bool

/-- get_followers_count (src/main.py lines 240-267). The two network
strategies try_api_method and scrape_with_playwright are oracles
(api, scrape); the booleans record which strategies were invoked. On a
cache hit the cached value is returned and no strategy runs; otherwise
the API probe runs first, the scraper runs only when the probe result is
falsy (line 257: if not followers), and a truthy result is stored. -/
def getFollowersCount (c : Cache) (now : Int) (username : String)
    (api scrape : Option String) : ChainResult :=
  let key := getCacheKey username
  let lr := cacheLookup c now key
  match lr.1 with
  | some v => ⟨some v, lr.2, false, false⟩
  | none =>
    if pyTruthy api then
      ⟨api, cacheStore lr.2 now key (api.getD ""), true, false⟩
    else
      if pyTruthy scrape then
        ⟨scrape, cacheStore lr.2 now key (scrape.getD ""), true, true⟩
      else
        ⟨scrape, lr.2, true, true⟩

/-- The record built by format_followers (src/main.py lines 295-299). -/
structure FollowersRecord where
  raw : String
  formatted : String
  numeric : Int
  deriving DecidableEq

/-- Python str.isdigit for the ASCII strings this program handles:
non-empty and all decimal digits (src/main.py line 280). -/
def pyIsDigit (s : String) : Bool :=
  !s.isEmpty && s.data.all Char.isDigit

/-- Value of a decimal digit list (most significant first). -/
def parseDigits (l : List Char) : Nat :=
  l.foldl (fun a c => a * 10 + (c.toNat - '0'.toNat)) 0

/-- Group a reversed digit list into blocks of three, least significant
block first. -/
def chunk3 : List Char → List (List Char)
  | [] => []
  | a :: b :: c :: d :: rest => [a, b, c] :: chunk3 (d :: rest)
  | l => [l]

/-- Python format spec with a comma separator, as in the f-strings at
src/main.py lines 282 and 289: thousands grouping from the right. -/
def formatThousands (n : Int) : String :=
  (if n < 0 then "-" else "") ++
    String.mk ((List.intercalate [','] (chunk3 (toString n.natAbs).data.reverse)).reverse)

/-- Leading sign of a Python float literal. -/
def parseSign : List Char → Int × List Char
  | '+' :: rest => (1, rest)
  | '-' :: rest => (-1, rest)
  | l => (1, l)

/-- Python float(s) on the plain decimal literals this program can meet
(an optional sign, digits, an optional dot and fraction digits): returns
the signed mantissa together with the number of fraction digits, so the
parsed value is mantissa / 10 ^ decimals, exactly. Any other shape
raises ValueError, modelled as none. The magnitudes involved are small
enough that binary double rounding agrees with this exact reading. -/
def pyFloatParts (s : String) : Option (Int × Nat) :=
  let sl := parseSign s.data
  let intPart := sl.2.takeWhile Char.isDigit
  let rest := sl.2.dropWhile Char.isDigit
  match rest with
  | [] =>
    if intPart.isEmpty then none
    else some (sl.1 * (parseDigits intPart : Int), 0)
  | '.' :: frac =>
    if frac.all Char.isDigit && !(intPart.isEmpty && frac.isEmpty) then
      some (sl.1 * (parseDigits (intPart ++ frac) : Int), frac.length)
    else none
  | _ => none

/-- Integer division truncating toward zero, as the Python int builtin
truncates a float; the operands here make floor and truncation agree
branch by branch. -/
def truncDiv (a : Int) (b : Nat) : Int :=
  if a < 0 then -((-a) / (b : Int)) else a / (b : Int)

/-- The multipliers dict at src/main.py line 275, read at the suffix
lookup on line 285. -/
def multiplierOf (c : Char) : Option Int :=
  if c = 'K' || c = 'k' then some 1000
  else if c = 'M' || c = 'm' then some 1000000
  else if c = 'B' || c = 'b' then some 1000000000
  else none

/-- format_followers (src/main.py lines 269-299). An empty input yields
the sentinel record; a pure digit string is grouped with commas; a
string whose last character is a known suffix has its head parsed as a
float and scaled, int-truncated, then grouped; a malformed coefficient
or an unknown last character returns the input unchanged with numeric
value 0. -/
def formatFollowers (count : String) : FollowersRecord :=
  if count = "" then ⟨"0", "Unknown", 0⟩
  else if pyIsDigit count then
    let n : Int := (parseDigits count.data : Nat)
    ⟨count, formatThousands n, n⟩
  else
    match multiplierOf (count.data.getLastD ' ') with
    | some m =>
      match pyFloatParts (String.mk count.data.dropLast) with
      | some md =>
        let n := truncDiv (md.1 * m) (10 ^ md.2)
        ⟨count, formatThousands n, n⟩
      | none => ⟨count, count, 0⟩
    | none => ⟨count, count, 0⟩

/-- cleanup_expired_cache (src/main.py lines 400-413): every entry that
fails is_cache_valid is deleted; valid entries are untouched. -/
def cleanupExpiredCache (c : Cache) (now : Int) : Cache :=
  fun k =>
    match c k with
    | some e => if isCacheValid now e then some e else none
    | none => none

/-- maxsize of app_state.request_queue (src/main.py line 26). -/
def queueCapacity : Nat := 10

/-- asyncio.Queue.full: the current size has reached maxsize
(src/main.py line 358). -/
def queueFull (qsize : Nat) : Bool := queueCapacity ≤ qsize

/-- Detail string of the 400 response at src/main.py line 350. -/
def detailUsernameRequired : String := "Username is required"

/-- Detail string of the 400 response at src/main.py line 355. -/
def detailInvalidFormat : String := "Invalid username format"

/-- Detail string of the 429 response at src/main.py line 359. -/
def detailBusy : String := "Server busy, please try again later"

/-- Detail string of the 404 response at src/main.py lines 382-385. -/
def detailNotFound : String :=
  "Could not retrieve followers count. User may not exist or profile may be private."

/-- Detail string of the 500 response at src/main.py line 391. -/
def detailInternal : String := "Internal server error"

/-- Body of a 200 response (src/main.py lines 374-380); the timestamp
field carries the request time. -/
structure OkBody where
  username : String
  followers : FollowersRecord
  cached : Bool
  timestamp : Int
  status : String
  deriving DecidableEq

/-- Outcome of the endpoint: an HTTPException with status and detail, or
a 200 body. -/
inductive EndpointResult where
  | httpError (status : Nat) (detail : String)
  | ok (body : OkBody)
  deriving DecidableEq

/-- get_followers_endpoint (src/main.py lines 346-398). qsize is the
admission-queue size at entry; exc models an unexpected exception raised
inside the try block (the handler at lines 389-391 converts any such
exception into a 500 with a fixed detail string). The cached field of a
200 body is membership of the cache key after the chain ran
(line 377). -/
def getFollowersEndpoint (username : String) (qsize : Nat) (c : Cache) (now : Int)
    (api scrape : Option String) (exc : Option String) : EndpointResult × Cache :=
  if username = "" || pyStrip username = "" then (.httpError 400 detailUsernameRequired, c)
  else
    let uname := pyNormalize username
    if !validUsername uname then (.httpError 400 detailInvalidFormat, c)
    else if queueFull qsize then (.httpError 429 detailBusy, c)
    else
      match exc with
      | some _ => (.httpError 500 detailInternal, c)
      | none =>
        let r := getFollowersCount c now uname api scrape
        if pyTruthy r.followers then
          (.ok ⟨uname, formatFollowers (r.followers.getD ""),
            (r.cache (getCacheKey uname)).isSome, now, "success"⟩, r.cache)
        else
          (.httpError 404 detailNotFound, r.cache)

/-- A cache used by witnesses: one fresh entry and one stale entry. -/
def sampleCache : Cache :=
  fun k =>
    if k = "fresh" then some ⟨"42", 0⟩
    else if k = "stale" then some ⟨"7", -400⟩
    else none

/-- C1: storing a value and then looking the key up while the entry age
is within the 300-second TTL returns the stored value; looking up a key
whose entry age has reached or exceeded the TTL reports a miss and
deletes the entry; store unconditionally overwrites any existing entry
with the new value and the current timestamp. -/
theorem c1_cache_contract (c : Cache) (k v : String) (tstore now : Int) :
    (now - tstore < cacheTimeout →
      cacheLookup (cacheStore c tstore k v) now k = (some v, cacheStore c tstore k v)) ∧
    (∀ e : CacheEntry, c k = some e → cacheTimeout ≤ now - e.timestamp →
      (cacheLookup c now k).1 = none ∧ (cacheLookup c now k).2 k = none) ∧
    cacheStore c now k v k = some ⟨v, now⟩ := by
  refine ⟨?_, ?_, ?_⟩
  · intro h
    have hk : cacheStore c tstore k v k = some ⟨v, tstore⟩ := by simp [cacheStore]
    simp [cacheLookup, hk, isCacheValid, h]
  · intro e he hl
    have hv : isCacheValid now e = false := by
      simp only [isCacheValid, decide_eq_false_iff_not]
      omega
    simp [cacheLookup, he, hv, cacheDelete]
  · simp [cacheStore]

/-- C1 witness: a value stored at time 0 is returned at time 100; at
time 400 the same key is a miss and the entry is deleted; the store
itself placed the entry. -/
theorem c1_cache_contract_witness :
    cacheLookup (cacheStore emptyCache 0 "k" "42") 100 "k"
      = (some "42", cacheStore emptyCache 0 "k" "42") ∧
    ((cacheLookup (cacheStore emptyCache 0 "k" "42") 400 "k").1 = none ∧
      (cacheLookup (cacheStore emptyCache 0 "k" "42") 400 "k").2 "k" = none) ∧
    cacheStore emptyCache 0 "k" "42" "k" = some ⟨"42", 0⟩ :=
  ⟨(c1_cache_contract emptyCache "k" "42" 0 100).1 (by decide),
   (c1_cache_contract (cacheStore emptyCache 0 "k" "42") "k" "42" 0 400).2.1
     ⟨"42", 0⟩ (by decide) (by decide),
   (c1_cache_contract emptyCache "k" "42" 0 0).2.2⟩

/-- C8: after the sweep no entry whose age reaches the TTL survives, and
every entry whose age is within the TTL is still present with its value
and timestamp unchanged. -/
theorem c8_sweep_correct (c : Cache) (now : Int) :
    (∀ k e, cleanupExpiredCache c now k = some e → now - e.timestamp < cacheTimeout) ∧
    (∀ k e, c k = some e → now - e.timestamp < cacheTimeout →
      cleanupExpiredCache c now k = some e) := by
  constructor
  · intro k e h
    cases hc : c k with
    | none => simp [cleanupExpiredCache, hc] at h
    | some e2 =>
      simp only [cleanupExpiredCache, hc] at h
      by_cases hv : isCacheValid now e2
      · rw [if_pos hv] at h
        cases h
        simpa [isCacheValid] using hv
      · rw [if_neg hv] at h
        exact absurd h (by simp)
  · intro k e hc hv
    have : isCacheValid now e = true := by simpa [isCacheValid] using hv
    simp [cleanupExpiredCache, hc, this]

/-- C8 witness: in sampleCache at time 100, the entry of age 100
survives the sweep unchanged, and its age is below the TTL. -/
theorem c8_sweep_correct_witness :
    cleanupExpiredCache sampleCache 100 "fresh" = some ⟨"42", 0⟩ ∧
    (100 : Int) - (0 : Int) < cacheTimeout :=
  ⟨(c8_sweep_correct sampleCache 100).2 "fresh" ⟨"42", 0⟩ (by decide) (by decide),
   (c8_sweep_correct sampleCache 100).1 "fresh" ⟨"42", 0⟩ (by decide)⟩

/-- C2: the formatter test vectors. format "1200" groups to "1,200";
format "3.4K" gives "3,400"; format "1.5M" gives "1,500,000"; the empty
input gives the sentinel "Unknown" with numeric value 0; "abcK" has a
malformed coefficient and is returned unchanged. -/
theorem c2_format_vectors :
    formatFollowers "1200" = ⟨"1200", "1,200", 1200⟩ ∧
    formatFollowers "3.4K" = ⟨"3.4K", "3,400", 3400⟩ ∧
    formatFollowers "1.5M" = ⟨"1.5M", "1,500,000", 1500000⟩ ∧
    formatFollowers "" = ⟨"0", "Unknown", 0⟩ ∧
    formatFollowers "abcK" = ⟨"abcK", "abcK", 0⟩ := by
  decide

/-- C3: whenever the API probe yields a (truthy) value, the scraper is
never invoked and the chain result is exactly the probe value; the chain
reports none only when the probe failed and the scraper returned
none. -/
theorem c3_strategy_chain (c : Cache) (now : Int) (u : String)
    (api scrape : Option String) :
    (pyTruthy api = true →
      (getFollowersCount c now u api scrape).scrapeCalled = false ∧
      ((getFollowersCount c now u api scrape).apiCalled = true →
        (getFollowersCount c now u api scrape).followers = api)) ∧
    ((getFollowersCount c now u api scrape).followers = none →
      pyTruthy api = false ∧ scrape = none) := by
  cases hl : (cacheLookup c now (getCacheKey u)).1 with
  | some v =>
    constructor
    · intro _
      constructor
      · simp [getFollowersCount, hl]
      · intro hac; simp [getFollowersCount, hl] at hac
    · intro hf
      simp [getFollowersCount, hl] at hf
  | none =>
    cases ha : pyTruthy api with
    | true =>
      constructor
      · intro _
        constructor
        · simp [getFollowersCount, hl, ha]
        · intro _; simp [getFollowersCount, hl, ha]
      · intro hf
        simp [getFollowersCount, hl, ha] at hf
        rw [hf] at ha
        simp [pyTruthy] at ha
    | false =>
      constructor
      · intro ha2; simp [ha] at ha2
      · intro hf
        cases hs : pyTruthy scrape with
        | true =>
          simp [getFollowersCount, hl, ha, hs] at hf
          rw [hf] at hs
          simp [pyTruthy] at hs
        | false =>
          refine ⟨rfl, ?_⟩
          simpa [getFollowersCount, hl, ha, hs] using hf

/-- C3 witness: with a truthy probe result the scraper flag is false and
the result is the probe value; with a falsy probe and a failing scraper
the chain reports none. -/
theorem c3_strategy_chain_witness :
    (getFollowersCount emptyCache 0 "alice" (some "42") (some "7")).scrapeCalled = false ∧
    (getFollowersCount emptyCache 0 "alice" (some "42") (some "7")).followers = some "42" ∧
    (pyTruthy (some "" : Option String) = false ∧ (none : Option String) = none) :=
  ⟨((c3_strategy_chain emptyCache 0 "alice" (some "42") (some "7")).1 (by decide)).1,
   ((c3_strategy_chain emptyCache 0 "alice" (some "42") (some "7")).1 (by decide)).2 (by decide),
   (c3_strategy_chain emptyCache 0 "bob" (some "") none).2 (by decide)⟩

/-- C10: a non-empty value that is not a pure digit string and whose
last character is not a known suffix is returned unchanged with numeric
value 0, and the raw field always equals the input (or "0" when the
input is empty). -/
theorem c10_formatter_fallthrough (s : String) :
    (s ≠ "" → pyIsDigit s = false →
      s.data.getLastD ' ' ∉ (['K', 'M', 'B', 'k', 'm', 'b'] : List Char) →
      formatFollowers s = ⟨s, s, 0⟩) ∧
    (formatFollowers s).raw = (if s = "" then "0" else s) := by
  constructor
  · intro h1 h2 h3
    simp only [List.getLastD_eq_getLast?, List.mem_cons, List.not_mem_nil, or_false,
      not_or] at h3
    obtain ⟨k1, k2, k3, k4, k5, k6⟩ := h3
    have hm : multiplierOf (s.data.getLast?.getD ' ') = none := by
      simp [multiplierOf, k1, k2, k3, k4, k5, k6]
    simp [formatFollowers, h1, h2, hm]
  · rcases eq_or_ne s "" with rfl | h
    · simp [formatFollowers]
    · simp only [formatFollowers, if_neg h]
      by_cases hd : pyIsDigit s
      · simp [hd]
      · simp only [hd, Bool.false_eq_true, if_false]
        cases hmul : multiplierOf (s.data.getLastD ' ') with
        | none => simp
        | some m =>
          cases hf : pyFloatParts (String.mk s.data.dropLast) with
          | none => simp
          | some md => simp

/-- C10 witness: the comma-grouped selector output "1,234" passes
through unchanged with numeric value 0, and the raw field of the empty
input is "0". -/
theorem c10_formatter_fallthrough_witness :
    formatFollowers "1,234" = ⟨"1,234", "1,234", 0⟩ ∧
    (formatFollowers "").raw = (if ("" : String) = "" then "0" else "") :=
  ⟨(c10_formatter_fallthrough "1,234").1 (by decide) (by decide) (by decide),
   (c10_formatter_fallthrough "").2⟩

/-- C6 counterexample: the claim says a non-leading at-sign survives
normalization and then fails validation, but normalizing "a@b" removes
the interior at-sign and the result "ab" passes validation. -/
theorem c6_counterexample :
    pyNormalize "a@b" = "ab" ∧ validUsername (pyNormalize "a@b") = true := by
  decide

/-- C6 amended: normalization trims surrounding whitespace and removes
every at-sign, wherever it occurs: the result never contains an at-sign
and is a subsequence of the input. -/
theorem c6_normalize_removes_every_at (x : String) :
    '@' ∉ (pyNormalize x).data ∧ (pyNormalize x).data.Sublist x.data := by
  constructor
  · intro hmem
    have : '@' ∈ (pyStrip x).data.filter (fun c => c ≠ '@') := hmem
    simp [List.mem_filter] at this
  · show ((pyStrip x).data.filter (fun c => c ≠ '@')).Sublist x.data
    refine (List.filter_sublist _).trans ?_
    show (stripChars x.data).Sublist x.data
    have h1 : (x.data.dropWhile isPySpace).Sublist x.data := List.dropWhile_sublist _
    have h2 : ((x.data.dropWhile isPySpace).reverse.dropWhile isPySpace).Sublist
        (x.data.dropWhile isPySpace).reverse := List.dropWhile_sublist _
    have h3 := h2.reverse
    rw [List.reverse_reverse] at h3
    exact h3.trans h1

/-- An allow-listed character is not Python whitespace. -/
theorem allowedChar_not_space (c : Char) (h : isAllowedChar c = true) :
    isPySpace c = false := by
  cases hsp : isPySpace c with
  | false => rfl
  | true =>
    exfalso
    have hmem : c = ' ' ∨ c = '\t' ∨ c = '\n' ∨ c = '\r' ∨ c = '\x0b' ∨ c = '\x0c' := by
      simpa [isPySpace, or_assoc] using hsp
    rcases hmem with rfl | rfl | rfl | rfl | rfl | rfl <;> exact absurd h (by decide)

/-- An allow-listed character is not the at-sign. -/
theorem allowedChar_ne_at (c : Char) (h : isAllowedChar c = true) : c ≠ '@' := by
  intro heq
  rw [heq] at h
  exact absurd h (by decide)

/-- dropWhile is the identity when no element satisfies the predicate. -/
theorem dropWhile_space_eq_self (l : List Char)
    (h : ∀ c ∈ l, isPySpace c = false) : l.dropWhile isPySpace = l := by
  cases l with
  | nil => rfl
  | cons a t => simp [List.dropWhile_cons, h a (by simp)]

/-- On an allow-listed username, normalization changes nothing. -/
theorem pyNormalize_eq_self (x : String) (h : validUsername x = true) :
    pyNormalize x = x := by
  have hall : ∀ c ∈ x.data, isAllowedChar c = true := by
    simp only [validUsername, Bool.and_eq_true, List.all_eq_true] at h
    exact h.2
  have hstrip : stripChars x.data = x.data := by
    unfold stripChars
    rw [dropWhile_space_eq_self x.data (fun c hc => allowedChar_not_space c (hall c hc))]
    rw [dropWhile_space_eq_self x.data.reverse
      (fun c hc => allowedChar_not_space c (hall c (List.mem_reverse.mp hc)))]
    exact List.reverse_reverse _
  have hfilter : x.data.filter (fun c => c ≠ '@') = x.data := by
    refine List.filter_eq_self.mpr ?_
    intro a ha
    simpa using allowedChar_ne_at a (hall a ha)
  show String.mk ((stripChars x.data).filter (fun c => c ≠ '@')) = x
  rw [hstrip, hfilter]

/-- C7 counterexample: normalization is not idempotent on every string;
removing the at-sign from "@ a" exposes a leading space, so a second
normalization changes the result again. -/
theorem c7_counterexample :
    pyNormalize (pyNormalize "@ a") ≠ pyNormalize "@ a" := by
  decide

/-- C7 amended: normalization is idempotent on every username matching
the allow-list, where it is the identity. -/
theorem c7_idempotent_on_allowlist (x : String) (h : validUsername x = true) :
    pyNormalize (pyNormalize x) = pyNormalize x := by
  rw [pyNormalize_eq_self x h, pyNormalize_eq_self x h]

/-- C7 witness: idempotence at the allow-listed username "abc". -/
theorem c7_idempotent_on_allowlist_witness :
    pyNormalize (pyNormalize "abc") = pyNormalize "abc" :=
  c7_idempotent_on_allowlist "abc" (by decide)

/-- A username whose normalization passes validation is neither empty
nor whitespace-only. -/
theorem valid_normalized_nonempty (u : String)
    (h : validUsername (pyNormalize u) = true) : u ≠ "" ∧ pyStrip u ≠ "" := by
  constructor
  · intro he
    rw [he] at h
    exact absurd h (by decide)
  · intro he
    have hn : pyNormalize u = "" := by
      unfold pyNormalize
      rw [he]
      rfl
    rw [hn] at h
    exact absurd h (by decide)

/-- C4: the endpoint status contract. A whitespace-only or empty
username gives 400; a normalized username failing the allow-list gives
400; a full admission queue gives 429; a cache miss with every strategy
failing gives 404; a successful extraction gives 200 with the username,
the formatted followers record, the cached flag, the timestamp and the
status field. -/
theorem c4_endpoint_status (u : String) (qsize : Nat) (c : Cache) (now : Int)
    (api scrape exc : Option String) :
    (pyStrip u = "" →
      (getFollowersEndpoint u qsize c now api scrape exc).1 =
        .httpError 400 detailUsernameRequired) ∧
    (pyStrip u ≠ "" → validUsername (pyNormalize u) = false →
      (getFollowersEndpoint u qsize c now api scrape exc).1 =
        .httpError 400 detailInvalidFormat) ∧
    (validUsername (pyNormalize u) = true → queueCapacity ≤ qsize →
      (getFollowersEndpoint u qsize c now api scrape exc).1 =
        .httpError 429 detailBusy) ∧
    (validUsername (pyNormalize u) = true → qsize < queueCapacity → exc = none →
      c (getCacheKey (pyNormalize u)) = none → pyTruthy api = false → scrape = none →
      (getFollowersEndpoint u qsize c now api scrape exc).1 =
        .httpError 404 detailNotFound) ∧
    (∀ v : String, validUsername (pyNormalize u) = true → qsize < queueCapacity →
      exc = none → c (getCacheKey (pyNormalize u)) = none → api = some v → v ≠ "" →
      (getFollowersEndpoint u qsize c now api scrape exc).1 =
        .ok ⟨pyNormalize u, formatFollowers v, true, now, "success"⟩) := by
  refine ⟨?_, ?_, ?_, ?_, ?_⟩
  · intro h
    simp [getFollowersEndpoint, h]
  · intro h1 h2
    have hu : u ≠ "" := by
      intro he
      apply h1
      rw [he]
      rfl
    simp [getFollowersEndpoint, hu, h1, h2]
  · intro hval hq
    obtain ⟨hu, hs⟩ := valid_normalized_nonempty u hval
    have hqf : queueFull qsize = true := by simp [queueFull, hq]
    simp [getFollowersEndpoint, hu, hs, hval, hqf]
  · intro hval hq hexc hmiss hapi hscrape
    obtain ⟨hu, hs⟩ := valid_normalized_nonempty u hval
    have hqf : queueFull qsize = false := by
      simp only [queueFull, decide_eq_false_iff_not]
      omega
    have hlook : cacheLookup c now (getCacheKey (pyNormalize u)) = (none, c) := by
      simp [cacheLookup, hmiss]
    have hnone : pyTruthy none = false := rfl
    subst hexc hscrape
    simp [getFollowersEndpoint, hu, hs, hval, hqf, getFollowersCount, hlook, hapi,
      hnone]
  · intro v hval hq hexc hmiss hapi hv
    obtain ⟨hu, hs⟩ := valid_normalized_nonempty u hval
    have hqf : queueFull qsize = false := by
      simp only [queueFull, decide_eq_false_iff_not]
      omega
    have hlook : cacheLookup c now (getCacheKey (pyNormalize u)) = (none, c) := by
      simp [cacheLookup, hmiss]
    have hve : v.isEmpty = false := by
      cases hbe : v.isEmpty with
      | false => rfl
      | true => exact absurd ((String.isEmpty_iff v).mp hbe) hv
    have htruthy : pyTruthy api = true := by
      rw [hapi]
      show (!v.isEmpty) = true
      rw [hve]
      rfl
    subst hexc hapi
    simp [getFollowersEndpoint, hu, hs, hval, hqf, getFollowersCount, hlook, htruthy,
      cacheStore, hv]

/-- C4 witness: a whitespace-only username gives 400; a username with an
interior space gives 400; a full queue gives 429; a failing chain gives
404; a successful probe gives 200 with the response body. -/
theorem c4_endpoint_status_witness :
    (getFollowersEndpoint " " 0 emptyCache 0 none none none).1 =
      .httpError 400 detailUsernameRequired ∧
    (getFollowersEndpoint "a b" 0 emptyCache 0 none none none).1 =
      .httpError 400 detailInvalidFormat ∧
    (getFollowersEndpoint "alice" 10 emptyCache 0 none none none).1 =
      .httpError 429 detailBusy ∧
    (getFollowersEndpoint "alice" 0 emptyCache 0 none none none).1 =
      .httpError 404 detailNotFound ∧
    (getFollowersEndpoint "@alice" 0 emptyCache 0 (some "42") none none).1 =
      .ok ⟨"alice", formatFollowers "42", true, 0, "success"⟩ :=
  ⟨(c4_endpoint_status " " 0 emptyCache 0 none none none).1 (by decide),
   (c4_endpoint_status "a b" 0 emptyCache 0 none none none).2.1 (by decide) (by decide),
   (c4_endpoint_status "alice" 10 emptyCache 0 none none none).2.2.1
     (by decide) (by decide),
   (c4_endpoint_status "alice" 0 emptyCache 0 none none none).2.2.2.1
     (by decide) (by decide) rfl (by decide) (by decide) rfl,
   (c4_endpoint_status "@alice" 0 emptyCache 0 (some "42") none none).2.2.2.2 "42"
     (by decide) (by decide) rfl (by decide) rfl (by decide)⟩

/-- C5 counterexample: on an internal exception with message "boom" the
endpoint responds 500 with the fixed detail "Internal server error", so
the exception message is not passed through verbatim. -/
theorem c5_counterexample :
    (getFollowersEndpoint "alice" 0 emptyCache 0 none none (some "boom")).1 =
      .httpError 500 "Internal server error" ∧
    detailInternal ≠ "boom" := by
  decide

/-- C5 amended: on an unexpected internal exception in the extraction
chain (any message), a validated request returns status 500 with the
fixed detail string "Internal server error"; the message itself is
dropped from the response. -/
theorem c5_internal_fixed_detail (u : String) (qsize : Nat) (c : Cache) (now : Int)
    (api scrape : Option String) (msg : String)
    (hval : validUsername (pyNormalize u) = true) (hq : qsize < queueCapacity) :
    (getFollowersEndpoint u qsize c now api scrape (some msg)).1 =
      .httpError 500 detailInternal := by
  obtain ⟨hu, hs⟩ := valid_normalized_nonempty u hval
  have hqf : queueFull qsize = false := by
    simp only [queueFull, decide_eq_false_iff_not]
    omega
  simp [getFollowersEndpoint, hu, hs, hval, hqf]

/-- C5 witness: the amended statement at a concrete request. -/
theorem c5_internal_fixed_detail_witness :
    (getFollowersEndpoint "alice" 0 emptyCache 7 none none (some "oops")).1 =
      .httpError 500 detailInternal :=
  c5_internal_fixed_detail "alice" 0 emptyCache 7 none none "oops" (by decide) (by decide)

/-- Whenever the chain returns a truthy value, its key is in the cache
afterwards: a hit leaves the hit entry in place, and a fresh success is
stored before returning. -/
theorem chain_truthy_key_present (c : Cache) (now : Int) (u : String)
    (api scrape : Option String)
    (h : pyTruthy (getFollowersCount c now u api scrape).followers = true) :
    ((getFollowersCount c now u api scrape).cache (getCacheKey u)).isSome = true := by
  cases hl : (cacheLookup c now (getCacheKey u)).1 with
  | some v =>
    simp only [getFollowersCount, hl]
    cases hc : c (getCacheKey u) with
    | none => simp [cacheLookup, hc] at hl
    | some e =>
      cases hv : isCacheValid now e with
      | false => simp [cacheLookup, hc, hv] at hl
      | true => simp [cacheLookup, hc, hv]
  | none =>
    cases ha : pyTruthy api with
    | true => simp [getFollowersCount, hl, ha, cacheStore]
    | false =>
      cases hs : pyTruthy scrape with
      | true => simp [getFollowersCount, hl, ha, hs, cacheStore]
      | false => simp [getFollowersCount, hl, ha, hs] at h

/-- C9: every 200 response carries cached = true, for cache hits and
fresh extractions alike, because a successful extraction stores its
result before the handler computes cache-key membership. -/
theorem c9_cached_always_true (u : String) (qsize : Nat) (c : Cache) (now : Int)
    (api scrape exc : Option String) (b : OkBody)
    (h : (getFollowersEndpoint u qsize c now api scrape exc).1 = .ok b) :
    b.cached = true := by
  simp only [getFollowersEndpoint] at h
  split at h
  next => simp at h
  next =>
    split at h
    next => simp at h
    next =>
      split at h
      next => simp at h
      next =>
        split at h
        next => simp at h
        next =>
          split at h
          next ht =>
            have hb : EndpointResult.ok
                ⟨pyNormalize u,
                  formatFollowers
                    ((getFollowersCount c now (pyNormalize u) api scrape).followers.getD ""),
                  ((getFollowersCount c now (pyNormalize u) api scrape).cache
                    (getCacheKey (pyNormalize u))).isSome,
                  now, "success"⟩ = .ok b := h
            injection hb with hb2
            rw [← hb2]
            exact chain_truthy_key_present c now (pyNormalize u) api scrape ht
          next => simp at h

/-- C9 witness: a fresh extraction that succeeds yields a 200 body whose
cached field is true. -/
theorem c9_cached_always_true_witness :
    (⟨"alice", formatFollowers "42", true, 0, "success"⟩ : OkBody).cached = true :=
  c9_cached_always_true "alice" 0 emptyCache 0 (some "42") none none
    ⟨"alice", formatFollowers "42", true, 0, "success"⟩ (by decide)
